import Mathlib

/-!
Verification of the `streamlit_msal_2` authentication and OBO token library.

The embedding models the module `streamlit_msal_2/__init__.py`:
* `check_role` embeds `_check_role` (dicts become association lists /
  optional fields; a Python `None` argument is `Option.none`, and the
  `AttributeError` raised when iterating `None.values()` is an explicit
  error constructor);
* `acquire_access_token_obo` embeds `_acquire_access_token_obo` (the HTTP
  endpoint is a response oracle indexed by the value of the `times`
  counter at the moment of the POST; the `while times < retry_times` loop
  is structural recursion on the remaining iteration count
  `retry_times - times`);
* `refresh_access_token` embeds `_refresh_access_token` and
  `refresh_obo_token` embeds the public refresh entry point (wall-clock
  time is an explicit `now : Int`, `datetime + timedelta(seconds=e)` is
  `now + e`);
* `init_auth` embeds the public initialization entry point; `st.warning`
  followed by `st.stop` is the `halted` outcome, an uncaught Python
  exception is the `raised` outcome, normal completion is `done`.
-/

/-- A decoded claims dictionary as consumed by `_check_role`: whether the
`"roles"` key is present (and with which list), and whether any other key
is present (which decides Python truthiness of the dict). -/
structure ClaimsObj where
  roles : Option (List String)
  extraKeys : Bool
deriving DecidableEq

/-- Python truthiness of a claims dict: a dict is truthy iff non-empty. -/
def ClaimsObj.truthy (c : ClaimsObj) : Bool :=
  c.roles.isSome || c.extraKeys

/-- Python truthiness of the `auth` argument of `_check_role`:
`None` and the empty dict are falsy. -/
def pyTruthy (auth : Option ClaimsObj) : Bool :=
  match auth with
  | none => false
  | some c => c.truthy

/-- Result of a Python call that either returns a value or raises
`AttributeError`. -/
inductive PyRes (α : Type) where
  | ok (a : α)
  | attributeError
deriving DecidableEq

/-- Embedding of `_check_role(auth, user_roles)`.  `auth` is `None` or a
claims dict; `user_roles` is `None` or a dict embedded as an association
list of (key, value) pairs.  Following the source: return `False` if
`auth` is falsy, return `False` if `"roles"` is not a key of `auth`,
otherwise iterate `user_roles.values()` (raising `AttributeError` when
`user_roles` is `None`) and return `True` on the first value contained in
`auth["roles"]`, else `False`. -/
def check_role (auth : Option ClaimsObj) (user_roles : Option (List (String × String))) :
    PyRes Bool :=
  if !pyTruthy auth then .ok false
  else
    match auth with
    | none => .ok false
    | some a =>
      match a.roles with
      | none => .ok false
      | some rs =>
        match user_roles with
        | none => .attributeError
        | some ur => .ok ((ur.map Prod.snd).any (fun v => rs.contains v))

example : check_role (some ⟨some ["App.Admin"], false⟩) (some [("Admin", "App.Admin")]) =
    .ok true := by decide

example : check_role (some ⟨some ["App.User"], false⟩) (some [("Admin", "App.Admin")]) =
    .ok false := by decide

example : check_role none (some [("Admin", "App.Admin")]) = .ok false := by decide

example : check_role (some ⟨some ["App.User"], false⟩) none = .attributeError := by decide

/-- Claim C1: with a `user_roles` dict `R` supplied, the role check returns
normally, and returns `true` iff the claims object is a dict with a
`"roles"` list intersecting the list of values of `R` (a single matching
value suffices); it returns `false` when the claims object is falsy or
absent, and when it lacks a `"roles"` key. -/
theorem check_role_values_intersection (auth : Option ClaimsObj)
    (R : List (String × String)) :
    (check_role auth (some R) = .ok true ↔
      ∃ a, auth = some a ∧ ∃ rs, a.roles = some rs ∧
        ∃ v ∈ R.map Prod.snd, v ∈ rs) ∧
    (check_role auth (some R) = .ok true ∨ check_role auth (some R) = .ok false) ∧
    (pyTruthy auth = false → check_role auth (some R) = .ok false) ∧
    (∀ a, auth = some a → a.roles = none → check_role auth (some R) = .ok false) := by
  obtain _ | ⟨rs0, ex⟩ := auth
  · refine ⟨by simp [check_role, pyTruthy], Or.inr rfl, fun _ => rfl, ?_⟩
    rintro a h
    cases h
  · obtain _ | rs := rs0
    · refine ⟨?_, Or.inr ?_, fun _ => ?_, fun a h hr => ?_⟩
      · simp [check_role, pyTruthy, ClaimsObj.truthy]
      · simp [check_role, pyTruthy, ClaimsObj.truthy]
      · simp [check_role, pyTruthy, ClaimsObj.truthy]
      · simp [check_role, pyTruthy, ClaimsObj.truthy]
    · have hrun : check_role (some ⟨some rs, ex⟩) (some R) =
          .ok ((R.map Prod.snd).any (fun v => rs.contains v)) := by
        simp [check_role, pyTruthy, ClaimsObj.truthy]
      refine ⟨?_, ?_, fun hfalse => ?_, fun a h hr => ?_⟩
      · rw [hrun]
        constructor
        · intro h
          have hany : ((R.map Prod.snd).any (fun v => rs.contains v)) = true := by
            cases hb : ((R.map Prod.snd).any (fun v => rs.contains v))
            · rw [hb] at h
              cases h
            · rfl
          rcases List.any_eq_true.mp hany with ⟨v, hv, hmem⟩
          exact ⟨⟨some rs, ex⟩, rfl, rs, rfl, v, hv, by simpa using hmem⟩
        · rintro ⟨a, ha, rs1, hrs1, v, hvR, hvrs⟩
          cases ha
          simp only [ClaimsObj.roles] at hrs1
          cases hrs1
          have hany : ((R.map Prod.snd).any (fun v => rs.contains v)) = true :=
            List.any_eq_true.mpr ⟨v, hvR, by simpa using hvrs⟩
          rw [hany]
      · rw [hrun]
        cases hb : ((R.map Prod.snd).any (fun v => rs.contains v))
        · exact Or.inr rfl
        · exact Or.inl rfl
      · exfalso
        simp [pyTruthy, ClaimsObj.truthy] at hfalse
      · cases h
        simp only [ClaimsObj.roles] at hr
        cases hr

/-- Witness for C1 at a concrete input: claims with roles
`["App.Admin"]` against required values `["App.Admin"]`. -/
theorem check_role_values_intersection_witness :
    check_role (some ⟨some ["App.Admin"], false⟩) (some [("Admin", "App.Admin")]) =
      .ok true :=
  (check_role_values_intersection (some ⟨some ["App.Admin"], false⟩)
    [("Admin", "App.Admin")]).1.mpr
    ⟨⟨some ["App.Admin"], false⟩, rfl, ["App.Admin"], rfl, "App.Admin", by decide, by decide⟩

/-- Claim C10: with `user_roles = None` (the documented default of
`init_auth`), the role check raises `AttributeError` exactly when the
claims object is a truthy dict carrying a `"roles"` key — the falsy-claims
and missing-`"roles"` early returns are the only paths tolerating `None`,
and on those it returns `false`. -/
theorem check_role_none_attribute_error (auth : Option ClaimsObj) :
    (check_role auth none = .attributeError ↔
      ∃ a, auth = some a ∧ a.roles.isSome = true) ∧
    (¬ (∃ a, auth = some a ∧ a.roles.isSome = true) →
      check_role auth none = .ok false) := by
  constructor
  · constructor
    · intro h
      match hA : auth with
      | none => simp [check_role, pyTruthy] at h
      | some a =>
        match hR : a.roles with
        | none => simp [check_role, pyTruthy, ClaimsObj.truthy, hR] at h
        | some rs => exact ⟨a, rfl, by simp [hR]⟩
    · rintro ⟨a, rfl, h⟩
      rcases Option.isSome_iff_exists.mp h with ⟨rs, hrs⟩
      simp [check_role, pyTruthy, ClaimsObj.truthy, hrs]
  · intro h
    match hA : auth with
    | none => simp [check_role, pyTruthy]
    | some a =>
      match hR : a.roles with
      | none => simp [check_role, pyTruthy, ClaimsObj.truthy, hR]
      | some rs => exact absurd ⟨a, rfl, by simp [hR]⟩ h

/-- Witness for C10: a truthy claims dict with a `"roles"` key makes the
role check raise `AttributeError` under the default `user_roles = None`. -/
theorem check_role_none_attribute_error_witness :
    check_role (some ⟨some ["App.User"], false⟩) none = .attributeError :=
  (check_role_none_attribute_error (some ⟨some ["App.User"], false⟩)).1.mpr
    ⟨⟨some ["App.User"], false⟩, rfl, by decide⟩

/-- A Python exception as raised by the module: `ValueError` for missing
configuration, `requests.exceptions.RequestException` carrying the value
of the attempt counter `times` at raise time, and `AttributeError` from
the role check. -/
inductive PyExc where
  | valueError
  | requestException (attempts : Nat)
  | attributeError
deriving DecidableEq

/-- A token-endpoint HTTP response: status code plus the parsed JSON body,
restricted to the fields the module reads (`access_token`,
`refresh_token`, `expires_in`); `truthy` is the Python truthiness of the
parsed body (`False` for an empty or null JSON document). -/
structure HttpResponse where
  status : Nat
  access_token : String
  refresh_token : String
  expires_in : Int
  truthy : Bool
deriving DecidableEq

/-- Process environment variables read and written by the module. -/
structure EnvState where
  TENANT_ID : Option String
  CLIENT_ID : Option String
  CLIENT_SECRET : Option String
  OBO_TOKEN : Option String
deriving DecidableEq

/-- Python `a or b` on optional strings: `a` is kept when it is a truthy
string (non-`None` and non-empty), otherwise `b` is used.  This embeds
`x = x or os.getenv(NAME, None)`. -/
def pyOrStr (a b : Option String) : Option String :=
  match a with
  | some s => if s = "" then b else some s
  | none => b

deriving instance DecidableEq for Except

/-- Observable outcome of `_acquire_access_token_obo`: how many POSTs were
issued to the token endpoint, and either the parsed 200 body that was
returned or the exception that was raised. -/
structure AcquireOutcome where
  posts : Nat
  result : Except PyExc HttpResponse
deriving DecidableEq

/-- The `while times < retry_times` loop of `_acquire_access_token_obo`.
`responses t` is the response the endpoint gives to the POST issued while
the counter `times` holds `t` (so `responses 1` answers the first POST).
The loop is driven by the remaining iteration count
`remaining = retry_times - times`, which decreases by one per failed
attempt; when it reaches zero the loop exits and the function raises
`RequestException` carrying the current value of `times`. -/
def acquireLoop (responses : Nat → HttpResponse) : Nat → Nat → AcquireOutcome
  | _times, 0 => ⟨0, .error (.requestException _times)⟩
  | times, remaining + 1 =>
    let r := responses times
    if r.status = 200 then ⟨1, .ok r⟩
    else
      let rest := acquireLoop responses (times + 1) remaining
      ⟨rest.posts + 1, rest.result⟩

/-- Embedding of `_acquire_access_token_obo`: resolve `tenant_id`,
`client_id`, `client_secret` through the environment fallback, raise
`ValueError` if any is still `None`, then run the retry loop starting
from `times = 1` (the loop body can run at most `retry_times - 1`
times). -/
def acquire_access_token_obo (tenant_id client_id client_secret : Option String)
    (env : EnvState) (responses : Nat → HttpResponse) (retry_times : Nat) :
    AcquireOutcome :=
  let t := pyOrStr tenant_id env.TENANT_ID
  let c := pyOrStr client_id env.CLIENT_ID
  let s := pyOrStr client_secret env.CLIENT_SECRET
  if t.isNone || c.isNone || s.isNone then ⟨0, .error .valueError⟩
  else acquireLoop responses 1 (retry_times - 1)

/-- When every POST answered during the loop fails (non-200), the loop
issues one POST per remaining iteration and raises with the counter at
`times + remaining`. -/
theorem acquireLoop_all_fail (responses : Nat → HttpResponse) :
    ∀ remaining times,
      (∀ j, times ≤ j → j < times + remaining → (responses j).status ≠ 200) →
      acquireLoop responses times remaining =
        ⟨remaining, .error (.requestException (times + remaining))⟩ := by
  intro remaining
  induction remaining with
  | zero => intro times _; simp [acquireLoop]
  | succ r ih =>
    intro times h
    have hfail : (responses times).status ≠ 200 :=
      h times (Nat.le_refl times) (by omega)
    have hrest := ih (times + 1) (fun j h1 h2 => h j (by omega) (by omega))
    simp only [acquireLoop, if_neg hfail, hrest]
    exact congrArg₂ AcquireOutcome.mk (by omega) (by rw [show times + 1 + r = times + (r + 1) by omega])

/-- When the POST answered with the counter at `k` is the first success,
the loop issues `k - times + 1` POSTs and returns that 200 body. -/
theorem acquireLoop_first_success (responses : Nat → HttpResponse) :
    ∀ remaining times k, times ≤ k → k < times + remaining →
      (responses k).status = 200 →
      (∀ j, times ≤ j → j < k → (responses j).status ≠ 200) →
      acquireLoop responses times remaining = ⟨k - times + 1, .ok (responses k)⟩ := by
  intro remaining
  induction remaining with
  | zero => intro times k h1 h2 _ _; omega
  | succ r ih =>
    intro times k h1 h2 hk hbefore
    rcases Nat.eq_or_lt_of_le h1 with rfl | hlt
    · simp [acquireLoop, hk]
    · have hfail : (responses times).status ≠ 200 :=
        hbefore times (Nat.le_refl times) hlt
      have hrest := ih (times + 1) k (by omega) (by omega) hk
        (fun j hj1 hj2 => hbefore j (by omega) hj2)
      simp only [acquireLoop, if_neg hfail, hrest]
      exact congrArg₂ AcquireOutcome.mk (by omega) rfl

/-- Claim C2: with configuration resolved, the acquire operation issues
exactly `retry_times - 1` POSTs and gives up with a request-failure error
when every response is non-200 (counter starts at 1, loop condition
`times < retry_times`); and when the response to the `k`-th POST
(`1 ≤ k ≤ retry_times - 1`) is the first HTTP 200, it issues exactly `k`
POSTs and returns that parsed body (in particular one POST when the first
response is 200). -/
theorem acquire_retry_post_counts (tenant_id client_id client_secret : Option String)
    (env : EnvState) (responses : Nat → HttpResponse) (retry_times : Nat)
    (hcfg : ((pyOrStr tenant_id env.TENANT_ID).isNone
        || (pyOrStr client_id env.CLIENT_ID).isNone
        || (pyOrStr client_secret env.CLIENT_SECRET).isNone) = false) :
    ((∀ j, 1 ≤ j → j < retry_times → (responses j).status ≠ 200) →
      (acquire_access_token_obo tenant_id client_id client_secret env responses
          retry_times).posts = retry_times - 1 ∧
      ∃ n, (acquire_access_token_obo tenant_id client_id client_secret env responses
          retry_times).result = .error (.requestException n)) ∧
    (∀ k, 1 ≤ k → k ≤ retry_times - 1 → (responses k).status = 200 →
      (∀ j, 1 ≤ j → j < k → (responses j).status ≠ 200) →
      acquire_access_token_obo tenant_id client_id client_secret env responses
          retry_times = ⟨k, .ok (responses k)⟩) := by
  have hrun : acquire_access_token_obo tenant_id client_id client_secret env responses
      retry_times = acquireLoop responses 1 (retry_times - 1) := by
    simp only [acquire_access_token_obo, hcfg, Bool.false_eq_true, if_false]
  constructor
  · intro hfail
    have h := acquireLoop_all_fail responses (retry_times - 1) 1
      (fun j h1 h2 => hfail j h1 (by omega))
    rw [hrun, h]
    exact ⟨rfl, 1 + (retry_times - 1), rfl⟩
  · intro k hk1 hk2 h200 hbefore
    have h := acquireLoop_first_success responses (retry_times - 1) 1 k hk1
      (by omega) h200 (fun j h1 h2 => hbefore j h1 h2)
    rw [hrun, h]
    exact congrArg₂ AcquireOutcome.mk (by omega) rfl

/-- Endpoint behaviour for the C2 witness: the POSTs answered while the
counter holds 1, 2 or 3 fail with HTTP 500, later ones succeed. -/
def failThenOkResponses : Nat → HttpResponse :=
  fun j => if j < 4 then ⟨500, "", "", 0, false⟩ else ⟨200, "tok", "ref", 3600, true⟩

/-- Witness for C2: endpoint returning 500 three consecutive times then
200 on the fourth call, `retry_times = 5`: acquire succeeds on the fourth
attempt with exactly 4 POSTs and returns the 200 body. -/
theorem acquire_retry_post_counts_witness :
    acquire_access_token_obo (some "t1") (some "c1") (some "sec")
        ⟨none, none, none, none⟩ failThenOkResponses 5 =
      ⟨4, .ok ⟨200, "tok", "ref", 3600, true⟩⟩ := by
  have h := (acquire_retry_post_counts (some "t1") (some "c1") (some "sec")
      ⟨none, none, none, none⟩ failThenOkResponses 5 (by decide)).2 4
    (by decide) (by decide) (by decide)
    (by
      intro j h1 h2
      have : j < 4 := h2
      simp only [failThenOkResponses, if_pos this]
      decide)
  rw [h]
  simp [failThenOkResponses]

/-- The OBO token record kept in `st.session_state.obo_info`:
`access_token`, `refresh_token` and the absolute expiry time
`expires_at`. -/
structure TokenRecord where
  access_token : String
  refresh_token : String
  expires_at : Int
deriving DecidableEq

/-- The `account` object of the sign-in widget's result: display `name`
and `username` (the email). -/
structure Account where
  name : String
  username : String
deriving DecidableEq

/-- The identity record returned by `Msal.initialize_ui`: the fields the
module reads are `account`, `idToken` and `idTokenClaims`. -/
structure IdentityRecord where
  account : Account
  idToken : String
  idTokenClaims : ClaimsObj
deriving DecidableEq

/-- The session-scoped state surface the module reads and writes:
`auth_data` (the identity record key, present iff `isSome`), `username`,
`roles`, `obo_info` (the OBO token record, falsy iff `none`) and
`obo_token`. -/
structure SessionState where
  auth_data : Option IdentityRecord
  username : Option String
  roles : Option (List String)
  obo_info : Option TokenRecord
  obo_token : Option String
deriving DecidableEq

/-- Embedding of `_refresh_access_token`: resolve the configuration
through the environment fallback and raise `ValueError` when any of
tenant id, client id or client secret is still `None`; otherwise issue
exactly one refresh-grant POST and return its parsed JSON body.  The
result pairs the number of POSTs issued with the body. -/
def refresh_access_token (tenant_id client_id client_secret : Option String)
    (env : EnvState) (resp : HttpResponse) : Except PyExc (Nat × HttpResponse) :=
  let t := pyOrStr tenant_id env.TENANT_ID
  let c := pyOrStr client_id env.CLIENT_ID
  let s := pyOrStr client_secret env.CLIENT_SECRET
  if t.isNone || c.isNone || s.isNone then .error .valueError
  else .ok (1, resp)

/-- Observable outcome of `refresh_obo_token`: POST count, the message
written with `st.write` (if any), whether the render pass was halted
(the function contains no `st.stop`, so this is always `false`), the
value returned or exception raised, and the final session state and
environment. -/
structure RefreshOutcome where
  posts : Nat
  wrote : Option String
  halted : Bool
  result : Except PyExc (Option TokenRecord)
  state : SessionState
  env : EnvState
deriving DecidableEq

/-- Embedding of `refresh_obo_token`.  Reads `st.session_state.obo_info`;
if falsy, writes "User not logged in" and returns `None`.  If the stored
`expires_at` is strictly before `now`, calls `_refresh_access_token`
(one POST, answered by `resp`), overwrites `access_token`,
`refresh_token` and `expires_at := now + expires_in`, stores the record
back, mirrors the new access token into the `OBO_TOKEN` environment
variable and `st.session_state.obo_token`; otherwise does nothing.
Returns `st.session_state.obo_info`. -/
def refresh_obo_token (tenant_id client_id client_secret : Option String)
    (env : EnvState) (now : Int) (resp : HttpResponse) (s : SessionState) :
    RefreshOutcome :=
  match s.obo_info with
  | none => ⟨0, some "User not logged in", false, .ok none, s, env⟩
  | some tokens =>
    if tokens.expires_at < now then
      match refresh_access_token tenant_id client_id client_secret env resp with
      | .error e => ⟨0, none, false, .error e, s, env⟩
      | .ok (n, new_tokens) =>
        let updated : TokenRecord :=
          ⟨new_tokens.access_token, new_tokens.refresh_token, now + new_tokens.expires_in⟩
        ⟨n, none, false, .ok (some updated),
          { s with obo_info := some updated, obo_token := some new_tokens.access_token },
          { env with OBO_TOKEN := some new_tokens.access_token }⟩
    else ⟨0, none, false, .ok (some tokens), s, env⟩

/-- Claim C3: with a token record stored and configuration resolved, the
refresh operation performs no HTTP call and leaves the record, the session
state and the environment unchanged whenever `expires_at` is at or after
`now` (the expiry test is a strict less-than against now), and issues
exactly one refresh-grant POST rewriting `access_token`, `refresh_token`
and `expires_at` whenever `expires_at` is strictly in the past. -/
theorem refresh_expiry_gate (tenant_id client_id client_secret : Option String)
    (env : EnvState) (now : Int) (resp : HttpResponse) (s : SessionState)
    (tokens : TokenRecord) (hs : s.obo_info = some tokens)
    (hcfg : ((pyOrStr tenant_id env.TENANT_ID).isNone
        || (pyOrStr client_id env.CLIENT_ID).isNone
        || (pyOrStr client_secret env.CLIENT_SECRET).isNone) = false) :
    (now ≤ tokens.expires_at →
      refresh_obo_token tenant_id client_id client_secret env now resp s =
        ⟨0, none, false, .ok (some tokens), s, env⟩) ∧
    (tokens.expires_at < now →
      refresh_obo_token tenant_id client_id client_secret env now resp s =
        ⟨1, none, false,
          .ok (some ⟨resp.access_token, resp.refresh_token, now + resp.expires_in⟩),
          { s with
              obo_info := some ⟨resp.access_token, resp.refresh_token, now + resp.expires_in⟩,
              obo_token := some resp.access_token },
          { env with OBO_TOKEN := some resp.access_token }⟩) := by
  have hrat : refresh_access_token tenant_id client_id client_secret env resp =
      .ok (1, resp) := by
    simp only [refresh_access_token, hcfg, Bool.false_eq_true, if_false]
  constructor
  · intro hle
    have hnot : ¬ tokens.expires_at < now := not_lt.mpr hle
    simp only [refresh_obo_token, hs, if_neg hnot]
  · intro hlt
    simp only [refresh_obo_token, hs, if_pos hlt, hrat]

/-- Witness for C3: a record expiring at time 10 queried at time 5 is
returned unchanged with no POST; queried at time 20 it is rewritten with
one POST. -/
theorem refresh_expiry_gate_witness :
    (refresh_obo_token (some "t1") (some "c1") (some "sec") ⟨none, none, none, none⟩ 5
        ⟨200, "at2", "rt2", 60, true⟩ ⟨none, none, none, some ⟨"at1", "rt1", 10⟩, none⟩ =
      ⟨0, none, false, .ok (some ⟨"at1", "rt1", 10⟩),
        ⟨none, none, none, some ⟨"at1", "rt1", 10⟩, none⟩, ⟨none, none, none, none⟩⟩) ∧
    (refresh_obo_token (some "t1") (some "c1") (some "sec") ⟨none, none, none, none⟩ 20
        ⟨200, "at2", "rt2", 60, true⟩ ⟨none, none, none, some ⟨"at1", "rt1", 10⟩, none⟩ =
      ⟨1, none, false, .ok (some ⟨"at2", "rt2", 80⟩),
        ⟨none, none, none, some ⟨"at2", "rt2", 80⟩, some "at2"⟩,
        ⟨none, none, none, some "at2"⟩⟩) := by
  constructor
  · exact (refresh_expiry_gate (some "t1") (some "c1") (some "sec")
      ⟨none, none, none, none⟩ 5 ⟨200, "at2", "rt2", 60, true⟩
      ⟨none, none, none, some ⟨"at1", "rt1", 10⟩, none⟩ ⟨"at1", "rt1", 10⟩ rfl
      (by decide)).1 (by decide)
  · exact (refresh_expiry_gate (some "t1") (some "c1") (some "sec")
      ⟨none, none, none, none⟩ 20 ⟨200, "at2", "rt2", 60, true⟩
      ⟨none, none, none, some ⟨"at1", "rt1", 10⟩, none⟩ ⟨"at1", "rt1", 10⟩ rfl
      (by decide)).2 (by decide)

/-- Claim C6: after a refresh that performs the refresh-grant POST, the
stored record's `expires_at` equals the refresh-call time plus the
response's `expires_in`, the process-wide `OBO_TOKEN` mirror and the
session key `obo_token` both equal the new access token, and the full
updated record is written back to session state and returned as the
result (the record, not the bare access token). -/
theorem refresh_round_trip (tenant_id client_id client_secret : Option String)
    (env : EnvState) (now : Int) (resp : HttpResponse) (s : SessionState)
    (tokens : TokenRecord) (hs : s.obo_info = some tokens)
    (hexp : tokens.expires_at < now)
    (hcfg : ((pyOrStr tenant_id env.TENANT_ID).isNone
        || (pyOrStr client_id env.CLIENT_ID).isNone
        || (pyOrStr client_secret env.CLIENT_SECRET).isNone) = false) :
    (refresh_obo_token tenant_id client_id client_secret env now resp s).state.obo_info =
        some ⟨resp.access_token, resp.refresh_token, now + resp.expires_in⟩ ∧
    (refresh_obo_token tenant_id client_id client_secret env now resp s).env.OBO_TOKEN =
        some resp.access_token ∧
    (refresh_obo_token tenant_id client_id client_secret env now resp s).state.obo_token =
        some resp.access_token ∧
    (refresh_obo_token tenant_id client_id client_secret env now resp s).result =
        .ok (refresh_obo_token tenant_id client_id client_secret env now resp s).state.obo_info := by
  have hrat : refresh_access_token tenant_id client_id client_secret env resp =
      .ok (1, resp) := by
    simp only [refresh_access_token, hcfg, Bool.false_eq_true, if_false]
  refine ⟨?_, ?_, ?_, ?_⟩ <;> simp only [refresh_obo_token, hs, if_pos hexp, hrat]

/-- Witness for C6: refreshing an expired record at time 20 with a
response carrying `expires_in = 60` stores expiry 80 and mirrors the new
access token. -/
theorem refresh_round_trip_witness :
    (refresh_obo_token (some "t1") (some "c1") (some "sec") ⟨none, none, none, none⟩ 20
        ⟨200, "at2", "rt2", 60, true⟩
        ⟨none, none, none, some ⟨"at1", "rt1", 10⟩, none⟩).state.obo_info =
      some ⟨"at2", "rt2", 80⟩ :=
  (refresh_round_trip (some "t1") (some "c1") (some "sec") ⟨none, none, none, none⟩ 20
    ⟨200, "at2", "rt2", 60, true⟩ ⟨none, none, none, some ⟨"at1", "rt1", 10⟩, none⟩
    ⟨"at1", "rt1", 10⟩ rfl (by decide) (by decide)).1

/-- Claim C8: calling the refresh entry point with no OBO token record in
session state writes "User not logged in", returns `None`, does not halt
the render pass, performs no HTTP call, and leaves session state and
environment unchanged. -/
theorem refresh_not_logged_in (tenant_id client_id client_secret : Option String)
    (env : EnvState) (now : Int) (resp : HttpResponse) (s : SessionState)
    (hs : s.obo_info = none) :
    refresh_obo_token tenant_id client_id client_secret env now resp s =
      ⟨0, some "User not logged in", false, .ok none, s, env⟩ := by
  simp only [refresh_obo_token, hs]

/-- Witness for C8 on the empty session state. -/
theorem refresh_not_logged_in_witness :
    refresh_obo_token (some "t1") (some "c1") (some "sec") ⟨none, none, none, none⟩ 5
        ⟨200, "at2", "rt2", 60, true⟩ ⟨none, none, none, none, none⟩ =
      ⟨0, some "User not logged in", false, .ok none, ⟨none, none, none, none, none⟩,
        ⟨none, none, none, none⟩⟩ :=
  refresh_not_logged_in (some "t1") (some "c1") (some "sec") ⟨none, none, none, none⟩ 5
    ⟨200, "at2", "rt2", 60, true⟩ ⟨none, none, none, none, none⟩ rfl

/-- Claim C9: whenever, after the environment fallback, any of tenant id,
client id or client secret is still `None`, the OBO acquire helper and the
refresh helper both raise `ValueError` (no POST is issued and no value is
returned). -/
theorem missing_config_value_error (tenant_id client_id client_secret : Option String)
    (env : EnvState) (responses : Nat → HttpResponse) (retry_times : Nat)
    (resp : HttpResponse)
    (hmiss : ((pyOrStr tenant_id env.TENANT_ID).isNone
        || (pyOrStr client_id env.CLIENT_ID).isNone
        || (pyOrStr client_secret env.CLIENT_SECRET).isNone) = true) :
    acquire_access_token_obo tenant_id client_id client_secret env responses retry_times =
        ⟨0, .error .valueError⟩ ∧
    refresh_access_token tenant_id client_id client_secret env resp = .error .valueError := by
  constructor
  · simp only [acquire_access_token_obo, hmiss, if_true]
  · simp only [refresh_access_token, hmiss, if_true]

/-- Witness for C9: all configuration absent (arguments `None`, empty
environment). -/
theorem missing_config_value_error_witness :
    acquire_access_token_obo none none none ⟨none, none, none, none⟩
        failThenOkResponses 5 = ⟨0, .error .valueError⟩ ∧
    refresh_access_token none none none ⟨none, none, none, none⟩
        ⟨200, "at2", "rt2", 60, true⟩ = .error .valueError :=
  missing_config_value_error none none none ⟨none, none, none, none⟩
    failThenOkResponses 5 ⟨200, "at2", "rt2", 60, true⟩ (by decide)

/-- Python's substring test `needle in hay` for strings: the empty string
is contained in everything, otherwise splitting on the needle yields more
than one piece exactly when it occurs. -/
def strContains (hay needle : String) : Bool :=
  needle.isEmpty || decide (2 ≤ (hay.splitOn needle).length)

/-- The arguments of `init_auth`, in source order (`downstream_scope` is
forwarded to the acquire helper; it does not influence the modelled
observables). -/
structure InitArgs where
  user_roles : Option (List (String × String))
  tenant_id : Option String
  client_id : Option String
  email_suffix : Option String
  init_obo_process : Bool
  client_secret : Option String
  downstream_scope : Option String
  retry_times : Nat
deriving DecidableEq

/-- Observable outcome of `init_auth`: `halted` is `st.warning`/`st.write`
followed by `st.stop` (carrying the message and the session state and
environment at that point), `raised` is an uncaught Python exception
escaping to the caller, `done` is normal completion. -/
inductive InitResult where
  | halted (warning : String) (s : SessionState) (env : EnvState)
  | raised (e : PyExc) (s : SessionState) (env : EnvState)
  | done (s : SessionState) (env : EnvState)
deriving DecidableEq

/-- The session state carried by an `init_auth` outcome. -/
def InitResult.state : InitResult → SessionState
  | .halted _ s _ => s
  | .raised _ s _ => s
  | .done s _ => s

/-- Whether an `init_auth` outcome halted the render pass. -/
def InitResult.isHalted : InitResult → Bool
  | .halted _ _ _ => true
  | _ => false

/-- Embedding of `init_auth`.  In source order: resolve tenant and client
ids (environment fallback), warn and halt when either is `None`; consume
the sign-in widget's result `auth_data`, warning and halting when it is
falsy or when a configured email suffix does not occur in the account
username; run the role check (an `AttributeError` from it escapes
uncaught); on a failed check warn with the display name and halt; set
`auth_data`, `username` and `roles` in session state only when the
`auth_data` key is not already present; when `init_obo_process` is set,
run the OBO acquire (an exception from it escapes uncaught; a falsy
returned body writes a message and halts; otherwise the token record with
`expires_at = now + expires_in` is stored and the access token is
mirrored to the `OBO_TOKEN` environment variable and
`st.session_state.obo_token`). -/
def init_auth (a : InitArgs) (env : EnvState) (auth_data : Option IdentityRecord)
    (responses : Nat → HttpResponse) (now : Int) (s : SessionState) : InitResult :=
  let client_id := pyOrStr a.client_id env.CLIENT_ID
  let tenant_id := pyOrStr a.tenant_id env.TENANT_ID
  if tenant_id.isNone || client_id.isNone then
    .halted "Tenant ID and client ID cannot be None" s env
  else
    match auth_data with
    | none => .halted "Invalid account, no permission found for you" s env
    | some ad =>
      if (match a.email_suffix with
          | some suffix => !strContains ad.account.username suffix
          | none => false) then
        .halted "Invalid account, no permission found for you" s env
      else
        match check_role (some ad.idTokenClaims) a.user_roles with
        | .attributeError => .raised .attributeError s env
        | .ok ok =>
          if ok = false then
            .halted ("Hello, " ++ ad.account.name ++ ", no permission found for you") s env
          else
            let s1 :=
              if s.auth_data.isSome then s
              else { s with
                  auth_data := some ad,
                  username := some ad.account.name,
                  roles := ad.idTokenClaims.roles }
            if a.init_obo_process then
              let acq := acquire_access_token_obo tenant_id client_id a.client_secret
                env responses a.retry_times
              match acq.result with
              | .error e => .raised e s1 env
              | .ok resp =>
                if !resp.truthy then
                  .halted "Failed acquiring token, refresh the page and login again" s1 env
                else
                  .done
                    { s1 with
                        obo_info := some
                          ⟨resp.access_token, resp.refresh_token, now + resp.expires_in⟩,
                        obo_token := some resp.access_token }
                    { env with OBO_TOKEN := some resp.access_token }
            else .done s1 env

/-- The empty session state (no key set yet). -/
def emptySession : SessionState := ⟨none, none, none, none, none⟩

/-- The empty process environment. -/
def emptyEnv : EnvState := ⟨none, none, none, none⟩

/-- An endpoint that always answers HTTP 500. -/
def allFailResponses : Nat → HttpResponse := fun _ => ⟨500, "", "", 0, false⟩

/-- The C7 scenario arguments: tenant `"t1"`, client `"c1"`, required
roles mapping `Admin` to `App.Admin`, no email suffix, no OBO. -/
def scenarioArgs : InitArgs :=
  ⟨some [("Admin", "App.Admin")], some "t1", some "c1", none, false, none, none, 5⟩

/-- The C4 scenario arguments: same gate inputs with the OBO process
enabled, a client secret, and retry budget 3. -/
def oboArgs : InitArgs :=
  ⟨some [("Admin", "App.Admin")], some "t1", some "c1", none, true, some "sec",
    some "api-scope", 3⟩

/-- An identity record whose claims carry the required role. -/
def adAdmin : IdentityRecord :=
  ⟨⟨"Alice", "alice@contoso.com"⟩, "idtok", ⟨some ["App.Admin"], false⟩⟩

example : init_auth scenarioArgs emptyEnv (some adAdmin) allFailResponses 0 emptySession =
    .done ⟨some adAdmin, some "Alice", some ["App.Admin"], none, none⟩ emptyEnv := by decide

example : init_auth oboArgs emptyEnv (some adAdmin) allFailResponses 0 emptySession =
    .raised (.requestException 3) ⟨some adAdmin, some "Alice", some ["App.Admin"], none, none⟩
      emptyEnv := by decide

/-- Claim C5: once the `auth_data` key is present in session state, any
further call to the initialization entry point leaves the Session
Identity State (`auth_data`, `username`, `roles`) unchanged, whatever
identity record the sign-in widget returns this time. -/
theorem init_auth_identity_state_stable (a : InitArgs) (env : EnvState)
    (auth_data : Option IdentityRecord) (responses : Nat → HttpResponse)
    (now : Int) (s : SessionState) (h : s.auth_data.isSome = true) :
    (init_auth a env auth_data responses now s).state.auth_data = s.auth_data ∧
    (init_auth a env auth_data responses now s).state.username = s.username ∧
    (init_auth a env auth_data responses now s).state.roles = s.roles := by
  unfold init_auth
  simp only [h, if_true]
  repeat' split
  all_goals simp [InitResult.state]

/-- Witness for C5: a session already holding the identity of `adAdmin`
is untouched by a second run that returns a different identity record. -/
theorem init_auth_identity_state_stable_witness :
    (init_auth scenarioArgs emptyEnv
        (some ⟨⟨"Bob", "bob@contoso.com"⟩, "idtok2", ⟨some ["App.Admin"], false⟩⟩)
        allFailResponses 0
        ⟨some adAdmin, some "Alice", some ["App.Admin"], none, none⟩).state.auth_data =
      some adAdmin :=
  (init_auth_identity_state_stable scenarioArgs emptyEnv
    (some ⟨⟨"Bob", "bob@contoso.com"⟩, "idtok2", ⟨some ["App.Admin"], false⟩⟩)
    allFailResponses 0
    ⟨some adAdmin, some "Alice", some ["App.Admin"], none, none⟩ (by decide)).1

/-- Claim C7: with required roles mapping `Admin` to `App.Admin`, an
identity whose claims roles are `["App.User"]` is warned about and the
render pass halts with session state unchanged (no Session Identity State
written); with claims roles `["App.Admin"]` the gate passes and Session
Identity State is written with `username` equal to the identity record's
account name. -/
theorem init_auth_role_scenarios (name email idTok : String) :
    init_auth scenarioArgs emptyEnv
        (some ⟨⟨name, email⟩, idTok, ⟨some ["App.User"], false⟩⟩)
        allFailResponses 0 emptySession =
      .halted ("Hello, " ++ name ++ ", no permission found for you") emptySession emptyEnv ∧
    init_auth scenarioArgs emptyEnv
        (some ⟨⟨name, email⟩, idTok, ⟨some ["App.Admin"], false⟩⟩)
        allFailResponses 0 emptySession =
      .done
        ⟨some ⟨⟨name, email⟩, idTok, ⟨some ["App.Admin"], false⟩⟩, some name,
          some ["App.Admin"], none, none⟩ emptyEnv := by
  exact ⟨rfl, rfl⟩

/-- Witness for C7 at a concrete account. -/
theorem init_auth_role_scenarios_witness :
    init_auth scenarioArgs emptyEnv
        (some ⟨⟨"Alice", "alice@contoso.com"⟩, "idtok", ⟨some ["App.User"], false⟩⟩)
        allFailResponses 0 emptySession =
      .halted ("Hello, " ++ "Alice" ++ ", no permission found for you") emptySession
        emptyEnv :=
  (init_auth_role_scenarios "Alice" "alice@contoso.com" "idtok").1

/-- Counterexample to C4: with the endpoint always failing and a retry
budget of 3, the acquire operation raises a request-failure error
carrying the attempt count, but `init_auth` (which wraps the call in no
try/except) does not halt the render pass with a message — the outcome
is the uncaught exception propagating to the caller. -/
theorem obo_exhaustion_not_caught_cex :
    (init_auth oboArgs emptyEnv (some adAdmin) allFailResponses 0 emptySession).isHalted =
      false ∧
    init_auth oboArgs emptyEnv (some adAdmin) allFailResponses 0 emptySession =
      .raised (.requestException 3)
        ⟨some adAdmin, some "Alice", some ["App.Admin"], none, none⟩ emptyEnv := by
  decide

/-- Claim C4 as amended: when the OBO acquire operation exhausts its
retry budget it raises a request-failure error carrying the attempt
count, and the initialization flow (`init_auth` with
`init_obo_process=True`) does not catch it — the error propagates out of
`init_auth` to the caller; the user-visible message plus halt of the
render pass is produced only when acquire returns a falsy response body,
never on the exhaustion path. -/
theorem obo_exhaustion_propagates (responses : Nat → HttpResponse) (retry_times : Nat)
    (h1 : 1 ≤ retry_times)
    (hfail : ∀ j, 1 ≤ j → j < retry_times → (responses j).status ≠ 200) :
    (acquire_access_token_obo (some "t1") (some "c1") (some "sec") emptyEnv responses
        retry_times).result = .error (.requestException retry_times) ∧
    init_auth
        ⟨some [("Admin", "App.Admin")], some "t1", some "c1", none, true, some "sec",
          some "api-scope", retry_times⟩
        emptyEnv (some adAdmin) responses 0 emptySession =
      .raised (.requestException retry_times)
        ⟨some adAdmin, some "Alice", some ["App.Admin"], none, none⟩ emptyEnv := by
  have hloop := acquireLoop_all_fail responses (retry_times - 1) 1
    (fun j hj1 hj2 => hfail j hj1 (by omega))
  have hacq : acquire_access_token_obo (some "t1") (some "c1") (some "sec") emptyEnv
      responses retry_times = ⟨retry_times - 1, .error (.requestException retry_times)⟩ := by
    rw [show acquire_access_token_obo (some "t1") (some "c1") (some "sec") emptyEnv
        responses retry_times = acquireLoop responses 1 (retry_times - 1) from rfl, hloop]
    exact congrArg₂ AcquireOutcome.mk rfl (by rw [show 1 + (retry_times - 1) = retry_times by omega])
  refine ⟨by rw [hacq], ?_⟩
  show (init_auth _ _ _ _ _ _ = _)
  unfold init_auth
  simp only [show pyOrStr (some "t1") emptyEnv.TENANT_ID = some "t1" from rfl,
    show pyOrStr (some "c1") emptyEnv.CLIENT_ID = some "c1" from rfl, hacq]
  rfl

/-- Witness for the amended C4: an always-failing endpoint with retry
budget 3 makes `init_auth` surface the uncaught request-failure error. -/
theorem obo_exhaustion_propagates_witness :
    init_auth
        ⟨some [("Admin", "App.Admin")], some "t1", some "c1", none, true, some "sec",
          some "api-scope", 3⟩
        emptyEnv (some adAdmin) allFailResponses 0 emptySession =
      .raised (.requestException 3)
        ⟨some adAdmin, some "Alice", some ["App.Admin"], none, none⟩ emptyEnv :=
  (obo_exhaustion_propagates allFailResponses 3 (by decide)
    (fun j hj1 hj2 => by simp [allFailResponses])).2
